import Mathlib

set_option maxHeartbeats 1000000

/-! # Shallow embedding of the greetd session worker

Definitions are translated from `src/greetd/src/session/worker.rs` and
`src/greetd/src/pam/ffi.rs`. External collaborators (the PAM library, the
terminal layer, the process environment, the user database, fork/exec) are
supplied as oracle records whose fields hold the result each call would return
in one concrete run; the worker code itself is transcribed around them.
Message sends over the control socket are modelled as appending to a list.
-/

/-- The structured error payload.
Modelled from the spec: the type `crate::error::Error` is not among the
provided sources (only its uses in worker.rs are). The spec requires errors
crossing the process boundary to be structured data carrying a descriptive
text, built from plain strings at the protocol-mismatch and cancellation
sites (worker.rs lines 94-95, 115-116, 124-125). We model it as a
text-carrying value, serialized as a tagged JSON string. -/
inductive Error
  | text (s : String)
  deriving DecidableEq

/-- AuthMessageType, worker.rs lines 17-23. -/
inductive AuthMessageType
  | Visible
  | Secret
  | Info
  | Error
  deriving DecidableEq

/-- TerminalMode, worker.rs lines 25-33 (`vt: usize` modelled as Nat). -/
inductive TerminalMode
  | Terminal (path : String) (vt : Nat) (switch : Bool)
  | Stdin
  deriving DecidableEq

/-- ParentToSessionChild, worker.rs lines 35-53 (`class` renamed `cls`,
a Lean keyword). -/
inductive ParentToSessionChild
  | InitiateLogin (service cls user : String) (authenticate : Bool)
      (tty : TerminalMode) (source_profile : Bool)
  | PamResponse (resp : Option String)
  | Args (cmd : List String)
  | Start
  | Cancel
  deriving DecidableEq

/-- SessionChildToParent, worker.rs lines 64-70 (`u64` pid modelled as Nat). -/
inductive SessionChildToParent
  | Success
  | Error (e : Error)
  | PamMessage (style : AuthMessageType) (msg : String)
  | FinalChildPid (pid : Nat)
  deriving DecidableEq

/-! ## JSON wire format

`ParentToSessionChild::recv` (worker.rs lines 55-62) and
`SessionChildToParent::send` (lines 72-78) use serde_json with derived
Serialize/Deserialize. We model the serde data model for these enums:
externally tagged variants, unit variants as plain strings, struct variants
as single-key objects whose value lists the fields in declaration order. -/

/-- JSON values as produced by serde_json for these message types. -/
inductive Json
  | null
  | bool (b : Bool)
  | num (n : Nat)
  | str (s : String)
  | arr (xs : List Json)
  | obj (fields : List (String × Json))

def encodeAuthMessageType : AuthMessageType → Json
  | .Visible => .str "Visible"
  | .Secret => .str "Secret"
  | .Info => .str "Info"
  | .Error => .str "Error"

def decodeAuthMessageType : Json → Option AuthMessageType
  | .str "Visible" => some .Visible
  | .str "Secret" => some .Secret
  | .str "Info" => some .Info
  | .str "Error" => some .Error
  | _ => none

def encodeTerminalMode : TerminalMode → Json
  | .Terminal path vt sw =>
      .obj [("Terminal", .obj [("path", .str path), ("vt", .num vt), ("switch", .bool sw)])]
  | .Stdin => .str "Stdin"

def decodeTerminalMode : Json → Option TerminalMode
  | .obj [("Terminal", .obj [("path", .str p), ("vt", .num v), ("switch", .bool b)])] =>
      some (.Terminal p v b)
  | .str "Stdin" => some .Stdin
  | _ => none

def decodeStrList : List Json → Option (List String)
  | [] => some []
  | .str s :: rest => (decodeStrList rest).map (fun l => s :: l)
  | _ => none

def encodeP2S : ParentToSessionChild → Json
  | .InitiateLogin service cls user auth tty sp =>
      .obj [("InitiateLogin", .obj
        [("service", .str service), ("class", .str cls), ("user", .str user),
         ("authenticate", .bool auth), ("tty", encodeTerminalMode tty),
         ("source_profile", .bool sp)])]
  | .PamResponse none => .obj [("PamResponse", .obj [("resp", .null)])]
  | .PamResponse (some s) => .obj [("PamResponse", .obj [("resp", .str s)])]
  | .Args cmd => .obj [("Args", .obj [("cmd", .arr (cmd.map .str))])]
  | .Start => .str "Start"
  | .Cancel => .str "Cancel"

def decodeP2S : Json → Option ParentToSessionChild
  | .obj [("InitiateLogin", .obj
      [("service", .str service), ("class", .str cls), ("user", .str user),
       ("authenticate", .bool auth), ("tty", ttyJson),
       ("source_profile", .bool sp)])] =>
      (decodeTerminalMode ttyJson).map
        (fun tty => .InitiateLogin service cls user auth tty sp)
  | .obj [("PamResponse", .obj [("resp", .null)])] => some (.PamResponse none)
  | .obj [("PamResponse", .obj [("resp", .str s)])] => some (.PamResponse (some s))
  | .obj [("Args", .obj [("cmd", .arr xs)])] =>
      (decodeStrList xs).map (fun cmd => .Args cmd)
  | .str "Start" => some .Start
  | .str "Cancel" => some .Cancel
  | _ => none

def encodeError : Error → Json
  | .text s => .obj [("Error", .str s)]

def decodeError : Json → Option Error
  | .obj [("Error", .str s)] => some (.text s)
  | _ => none

def encodeS2P : SessionChildToParent → Json
  | .Success => .str "Success"
  | .Error e => .obj [("Error", encodeError e)]
  | .PamMessage style msg =>
      .obj [("PamMessage", .obj [("style", encodeAuthMessageType style), ("msg", .str msg)])]
  | .FinalChildPid pid => .obj [("FinalChildPid", .num pid)]

def decodeS2P : Json → Option SessionChildToParent
  | .str "Success" => some .Success
  | .obj [("Error", ej)] => (decodeError ej).map (fun e => .Error e)
  | .obj [("PamMessage", .obj [("style", sj), ("msg", .str m)])] =>
      (decodeAuthMessageType sj).map (fun st => .PamMessage st m)
  | .obj [("FinalChildPid", .num pid)] => some (.FinalChildPid pid)
  | _ => none

/-! ## Conversation bridge (src/greetd/src/pam/ffi.rs)

The `converse` callback (ffi.rs lines 23-105) is modelled over: the result of
the initial `calloc` (a flag), the list of incoming native messages, and the
handler bound through the appdata pointer. A C string payload is `none` when
its bytes are not valid UTF-8 (the case in which `CStr::to_str` fails at
lines 45-51), `some s` with the decoded text otherwise. -/

/-- PAM message style tags (pam_sys::PamMessageStyle), as dispatched at
ffi.rs line 53. -/
inductive PamMessageStyle
  | PROMPT_ECHO_OFF
  | PROMPT_ECHO_ON
  | ERROR_MSG
  | TEXT_INFO
  deriving DecidableEq

/-- One native conversation message: style tag plus text payload. -/
structure PamMessage where
  msg_style : PamMessageStyle
  msg : Option String
  deriving DecidableEq

/-- PAM return codes used by the bridge (pam_sys::PamReturnCode; only the
codes relevant to ffi.rs, plus representative others). -/
inductive PamReturnCode
  | SUCCESS
  | OPEN_ERR
  | BUF_ERR
  | AUTH_ERR
  | CONV_ERR
  deriving DecidableEq

/-- The capability interface of the bound conversation handler (the Converse
trait object reached through the appdata pointer at ffi.rs line 37; its
method surface is visible at lines 55, 64, 73, 78). -/
structure Converse where
  prompt_echo : String → Except Unit String
  prompt_blind : String → Except Unit String
  error : String → Except Unit Unit
  info : String → Except Unit Unit

/-- Whether a string contains an interior NUL character: the condition under
which `CString::new` fails, making the `expect` at ffi.rs lines 57 and 66
panic. -/
def hasNul (s : String) : Bool :=
  s.data.any (fun c => c == Char.ofNat 0)

/-- Outcome of processing a single message in the loop body
(ffi.rs lines 40-86): a populated response entry, a CONV_ERR break, or a
panic from `CString::new(..).expect(..)`. -/
inductive ConvStep
  | ok (resp : Option String)
  | fail
  | panicked (msg : String)
  deriving DecidableEq

def converseStep (h : Converse) (m : PamMessage) : ConvStep :=
  match m.msg with
  | none => .fail
  | some s =>
    match m.msg_style with
    | .PROMPT_ECHO_ON =>
      match h.prompt_echo s with
      | .ok r =>
          if hasNul r then .panicked "unable to allocate response string"
          else .ok (some r)
      | .error _ => .fail
    | .PROMPT_ECHO_OFF =>
      match h.prompt_blind s with
      | .ok r =>
          if hasNul r then .panicked "unable to allocate response string"
          else .ok (some r)
      | .error _ => .fail
    | .ERROR_MSG =>
      match h.error s with
      | .ok _ => .ok none
      | .error _ => .fail
    | .TEXT_INFO =>
      match h.info s with
      | .ok _ => .ok none
      | .error _ => .fail

/-- Result of the whole message loop: the populated response entries in
order, together with how the loop ended. -/
inductive LoopResult
  | success (resps : List (Option String))
  | failure (resps : List (Option String))
  | panicked (msg : String) (resps : List (Option String))
  deriving DecidableEq

def convLoop (h : Converse) : List PamMessage → LoopResult
  | [] => .success []
  | m :: rest =>
    match converseStep h m with
    | .panicked s => .panicked s []
    | .fail => .failure []
    | .ok r =>
      match convLoop h rest with
      | .success rs => .success (r :: rs)
      | .failure rs => .failure (r :: rs)
      | .panicked s rs => .panicked s (r :: rs)

/-- Observable result of one `converse` call, with explicit allocation
accounting: the strings duplicated by `strdup` during the batch, the strings
freed on the error path (ffi.rs lines 89-99), and the fate of the calloc'ed
response array. `output = some rs` models `*out_resp = resp` (line 101). -/
structure ConvResult where
  code : PamReturnCode
  output : Option (List (Option String))
  strings_allocated : List String
  strings_freed : List String
  array_allocated : Bool
  array_freed : Bool
  panicked : Option String
  deriving DecidableEq

def allocatedOf (rs : List (Option String)) : List String := rs.filterMap id

/-- The conversation callback, ffi.rs lines 23-105. `callocOk` is the result
of the allocation at line 31. -/
def converse (callocOk : Bool) (h : Converse) (msgs : List PamMessage) : ConvResult :=
  if callocOk = false then
    { code := .BUF_ERR, output := none, strings_allocated := [],
      strings_freed := [], array_allocated := false, array_freed := false,
      panicked := none }
  else
    match convLoop h msgs with
    | .panicked m rs =>
      { code := .SUCCESS, output := none, strings_allocated := allocatedOf rs,
        strings_freed := [], array_allocated := true, array_freed := false,
        panicked := some m }
    | .failure rs =>
      { code := .CONV_ERR, output := none, strings_allocated := allocatedOf rs,
        strings_freed := allocatedOf rs, array_allocated := true,
        array_freed := true, panicked := none }
    | .success rs =>
      { code := .SUCCESS, output := some rs, strings_allocated := allocatedOf rs,
        strings_freed := [], array_allocated := true, array_freed := false,
        panicked := none }

/-! ## Session worker (src/greetd/src/session/worker.rs) -/

/-- An operating-system user record as returned by
`users::get_user_by_name` (worker.rs line 130). The name, home directory and
shell are `none` when their OS bytes are not valid UTF-8 (the case in which
`.to_str()` fails at lines 167-169), `some s` otherwise. -/
structure UserRecord where
  name : Option String
  home_dir : Option String
  shell : Option String
  uid : Nat
  primary_group_id : Nat
  deriving DecidableEq

/-- Oracle for one concrete run of the worker: the parent's message script
and the result each external call would return. `Option Error`/`Option
String` fields are `none` on success, `some e` on failure with payload. -/
structure Sys where
  inputs : List ParentToSessionChild
  pam_start : Option Error
  pam_authenticate : Option Error
  pam_acct_mgmt : Option Error
  pam_setcred_establish : Option Error
  pam_get_user : Except Error String
  get_user_by_name : String → Option UserRecord
  setsid_res : Option String
  pam_set_item : String → Option Error
  pam_putenv : String → Option Error
  term_open : String → Option Error
  kd_setmode : Option Error
  term_clear : Option Error
  vt_get_current : Except Error Nat
  vt_setactivate : Option Error
  term_connect_pipes : Option Error
  term_take_ctty : Option Error
  set_current_dir : String → Bool
  env_var : String → Option String
  pam_open_session : Option Error
  pam_getenvlist : Except Error (List String)
  fork_res : Except String Nat
  sock_shutdown : Option Error
  prctl_res : Option Error
  pam_close_session : Option Error
  pam_setcred_delete : Option Error
  pam_end : Option Error

/-- Terminal result of the worker: normal return, a returned `Error`, or a
Rust panic (which does not return through `worker`'s `Result`). -/
inductive WorkerResult
  | ok
  | err (e : Error)
  | panicked (msg : String)
  deriving DecidableEq

/-- Observables of one worker run: the messages it sent on the socket, in
order, plus intermediate values the later stages computed (recorded when the
corresponding source line was reached, `none` otherwise). -/
structure WorkerOut where
  sent : List SessionChildToParent
  openSessionAttempted : Bool
  attemptedWorkdir : Option String
  pwd : Option String
  preparedEnv : Option (List String)
  command : Option String
  result : WorkerResult
  deriving DecidableEq

/-- Output for a failure before any of the later-stage observables exist. -/
def failOut (sent : List SessionChildToParent) (e : Error) : WorkerOut :=
  { sent := sent, openSessionAttempted := false, attemptedWorkdir := none,
    pwd := none, preparedEnv := none, command := none, result := .err e }

/-- Output constructor for the later stages, carrying the observables
computed so far. -/
def midOut (sent : List SessionChildToParent) (aw pwd : Option String)
    (env : Option (List String)) (cmd : Option String) (osa : Bool)
    (res : WorkerResult) : WorkerOut :=
  { sent := sent, openSessionAttempted := osa, attemptedWorkdir := aw,
    pwd := pwd, preparedEnv := env, command := cmd, result := res }

/-- Abstraction of the `{:?}` debug rendering used in the protocol-mismatch
messages (worker.rs lines 95, 116, 125): the variant tag of the offending
message. -/
def debugP2S : ParentToSessionChild → String
  | .InitiateLogin _ _ _ _ _ _ => "InitiateLogin"
  | .PamResponse _ => "PamResponse"
  | .Args _ => "Args"
  | .Start => "Start"
  | .Cancel => "Cancel"

/-- The `for e in prepared_env { pam.putenv(e)? }` loop, worker.rs 203-205. -/
def putenvAll (f : String → Option Error) : List String → Option Error
  | [] => none
  | e :: rest =>
    match f e with
    | some err => some err
    | none => putenvAll f rest

/-- The terminal-acquisition block, worker.rs lines 135-164. Returns the
first error, or `none` when the block completes (immediately for Stdin). -/
def ttyStage (sys : Sys) (tty : TerminalMode) : Option Error :=
  match tty with
  | .Stdin => none
  | .Terminal path vt sw =>
    match sys.pam_set_item ("tty" ++ toString vt) with
    | some e => some e
    | none =>
    match sys.pam_putenv ("XDG_VTNR=" ++ toString vt) with
    | some e => some e
    | none =>
    match sys.term_open path with
    | some e => some e
    | none =>
    match sys.kd_setmode with
    | some e => some e
    | none =>
    match sys.term_clear with
    | some e => some e
    | none =>
    -- `if switch && vt != target_term.vt_get_current()?` (line 154):
    -- vt_get_current is only consulted when switch is set.
    match (if sw then
             match sys.vt_get_current with
             | .error e => some (Except.error e)
             | .ok cur => if vt = cur then none else some (Except.ok ())
           else none : Option (Except Error Unit)) with
    | some (.error e) => some e
    | some (.ok _) =>
      match sys.vt_setactivate with
      | some e => some e
      | none =>
        match sys.term_connect_pipes with
        | some e => some e
        | none => sys.term_take_ctty
    | none =>
      match sys.term_connect_pipes with
      | some e => some e
      | none => sys.term_take_ctty

/-- The shell-invocation string, worker.rs lines 212-219. -/
def buildCommand (source_profile : Bool) (cmd : List String) : String :=
  if source_profile then
    "[ -f /etc/profile ] && . /etc/profile; [ -f $HOME/.profile ] && . $HOME/.profile; exec "
      ++ String.intercalate " " cmd
  else
    "exec " ++ String.intercalate " " cmd

/-- Observables of the part of the worker from the putenv loop onward
(worker.rs lines 203-290): the terminal result, whether open_session was
reached, the shell command once built, and the messages sent after the two
Successes (the FinalChildPid once the fork succeeds). -/
structure TailOut where
  result : WorkerResult
  openSessionAttempted : Bool
  command : Option String
  sentExtra : List SessionChildToParent
  deriving DecidableEq

/-- Worker.rs lines 203-290: putenv loop, open_session, the C-string and
shell-command preparation, getenvlist, fork, FinalChildPid send, socket
shutdown, death-signal re-arm, the waitpid loop (which retries EINTR and
treats any other failure as logged and non-fatal, so control always
proceeds), and PAM teardown. -/
def sessionTail (sys : Sys) (prepared_env : List String) (username : String)
    (source_profile : Bool) (cmd : List String) : TailOut :=
  match putenvAll sys.pam_putenv prepared_env with
  | some e => ⟨.err e, false, none, []⟩
  | none =>
  match sys.pam_open_session with
  | some e => ⟨.err e, true, none, []⟩
  | none =>
  -- line 211: CString::new(username)? fails (as an Err, not a panic) on an
  -- interior NUL.
  if hasNul username then ⟨.err (.text "nul byte found in provided data"), true, none, []⟩
  else
  let command := buildCommand source_profile cmd
  match sys.pam_getenvlist with
  | .error e => ⟨.err e, true, some command, []⟩
  | .ok _envvec =>
  match sys.fork_res with
  | .error e => ⟨.err (.text ("unable to fork: " ++ e)), true, some command, []⟩
  | .ok child =>
  let extra : List SessionChildToParent := [.FinalChildPid child]
  match sys.sock_shutdown with
  | some e => ⟨.err e, true, some command, extra⟩
  | none =>
  match sys.prctl_res with
  | some e => ⟨.err e, true, some command, extra⟩
  | none =>
  match sys.pam_close_session with
  | some e => ⟨.err e, true, some command, extra⟩
  | none =>
  match sys.pam_setcred_delete with
  | some e => ⟨.err e, true, some command, extra⟩
  | none =>
  match sys.pam_end with
  | some e => ⟨.err e, true, some command, extra⟩
  | none => ⟨.ok, true, some command, extra⟩

/-- Environment construction and everything after it, worker.rs lines
183-290. Reached with `[Success, Success]` already sent. `username`, `home`,
`shell` are the already-defaulted strings of lines 167-169 and `pwd` the
working directory chosen at lines 174-181. -/
def sessionEnvStage (sys : Sys) (cls : String) (source_profile : Bool)
    (cmd : List String) (username home shell pwd : String) : WorkerOut :=
  let sent0 : List SessionChildToParent := [.Success, .Success]
  let aw : Option String := some home
  -- line 196: env::var("GREETD_SOCK").unwrap() panics when the variable is
  -- absent; the panic propagates out of `worker` without returning an Err.
  match sys.env_var "GREETD_SOCK" with
  | none =>
    midOut sent0 aw (some pwd) none none false
      (.panicked "called Result unwrap on an Err value: NotPresent")
  | some sock =>
    let term := (sys.env_var "TERM").getD "linux"
    let prepared_env : List String :=
      [ "XDG_SEAT=seat0",
        "XDG_SESSION_CLASS=" ++ cls,
        "USER=" ++ username,
        "LOGNAME=" ++ username,
        "HOME=" ++ home,
        "SHELL=" ++ shell,
        "PWD=" ++ pwd,
        "GREETD_SOCK=" ++ sock,
        "TERM=" ++ term ]
    let t := sessionTail sys prepared_env username source_profile cmd
    midOut (sent0 ++ t.sentExtra) aw (some pwd) (some prepared_env)
      t.command t.openSessionAttempted t.result

/-- The post-Start part of the worker, worker.rs lines 128-181: resolve the
user, become session leader, acquire the terminal, default non-UTF-8 user
fields to "", and choose the working directory with the "/" fallback. -/
def sessionStage (sys : Sys) (cls : String) (tty : TerminalMode)
    (source_profile : Bool) (cmd : List String) : WorkerOut :=
  let sent0 : List SessionChildToParent := [.Success, .Success]
  match sys.pam_get_user with
  | .error e => failOut sent0 e
  | .ok pam_username =>
  match sys.get_user_by_name pam_username with
  | none => failOut sent0 (.text "unable to get user info")
  | some user =>
  match sys.setsid_res with
  | some e => failOut sent0 (.text ("unable to become session leader: " ++ e))
  | none =>
  match ttyStage sys tty with
  | some e => failOut sent0 e
  | none =>
  let username := (user.name).getD ""
  let home := (user.home_dir).getD ""
  let shell := (user.shell).getD ""
  -- lines 174-181: try the home directory, fall back to "/"; only a failing
  -- fallback is a hard error.
  if sys.set_current_dir home then
    sessionEnvStage sys cls source_profile cmd username home shell home
  else if sys.set_current_dir "/" then
    sessionEnvStage sys cls source_profile cmd username home shell "/"
  else
    midOut sent0 (some home) none none none false
      (.err (.text "unable to set working directory"))

/-- State 4 (AwaitStart), worker.rs lines 121-126. Reached with
`[Success, Success]` sent. -/
def startStage (sys : Sys) (rest : List ParentToSessionChild) (cls : String)
    (tty : TerminalMode) (source_profile : Bool) (cmd : List String) : WorkerOut :=
  let sent2 : List SessionChildToParent := [.Success, .Success]
  match rest with
  | [] => failOut sent2 (.text "recv failed")
  | m :: _rest3 =>
    match m with
    | .Start => sessionStage sys cls tty source_profile cmd
    | .Cancel => failOut sent2 (.text "cancelled")
    | msg => failOut sent2 (.text ("expected Start or Cancel, got: " ++ debugP2S msg))

/-- State 3 (AwaitArgs), worker.rs lines 112-119. Reached with `[Success]`
sent; accepting Args sends the second `Success` (line 119). -/
def argsStage (sys : Sys) (rest : List ParentToSessionChild) (cls : String)
    (tty : TerminalMode) (source_profile : Bool) : WorkerOut :=
  let sent1 : List SessionChildToParent := [.Success]
  match rest with
  | [] => failOut sent1 (.text "recv failed")
  | m :: rest2 =>
    match m with
    | .Args cmd => startStage sys rest2 cls tty source_profile cmd
    | .Cancel => failOut sent1 (.text "cancelled")
    | msg => failOut sent1 (.text ("expected Args or Cancel, got: " ++ debugP2S msg))

/-- State 2 (Authenticate), worker.rs lines 98-110: PamSession::start, the
optional authenticate step, acct_mgmt, setcred, then the first `Success`. -/
def authStage (sys : Sys) (rest : List ParentToSessionChild) (cls : String)
    (authenticate : Bool) (tty : TerminalMode) (source_profile : Bool) : WorkerOut :=
  match sys.pam_start with
  | some e => failOut [] e
  | none =>
  match (if authenticate then sys.pam_authenticate else none) with
  | some e => failOut [] e
  | none =>
  match sys.pam_acct_mgmt with
  | some e => failOut [] e
  | none =>
  match sys.pam_setcred_establish with
  | some e => failOut [] e
  | none => argsStage sys rest cls tty source_profile

/-- The session worker, worker.rs lines 83-291. An exhausted input script
models a failing socket receive. -/
def worker (sys : Sys) : WorkerOut :=
  match sys.inputs with
  | [] => failOut [] (.text "recv failed")
  | m1 :: rest1 =>
    match m1 with
    | .InitiateLogin _service cls _user authenticate tty source_profile =>
        authStage sys rest1 cls authenticate tty source_profile
    | .Cancel => failOut [] (.text "cancelled")
    | msg => failOut [] (.text ("expected InitiateLogin or Cancel, got: " ++ debugP2S msg))

/-- The worker entry point (the function named `main` in worker.rs lines
293-300): on an `Err` from the state machine, send the structured error to
the parent, then propagate it. A panic does not return through `worker`'s
`Result` and therefore reaches neither the send nor the propagation. -/
def workerMain (sys : Sys) : List SessionChildToParent × WorkerResult :=
  let out := worker sys
  match out.result with
  | .err e => (out.sent ++ [.Error e], .err e)
  | r => (out.sent, r)

/-! ## The forked child (worker.rs lines 230-258) -/

/-- Oracle for the forked child's privileged calls: `none` is success. -/
structure ChildSys where
  initgroups_res : Option String
  setgid_res : Option String
  setuid_res : Option String
  prctl_res : Option String
  execve_res : Option String

/-- The privileged actions the child attempts, in source order. -/
inductive ChildAction
  | initgroups
  | setgid
  | setuid
  | prctl
  | execve
  deriving DecidableEq

/-- How the child ends: replaced by the exec'd image, or terminated by a
panic from `expect`/`unwrap` (worker.rs lines 236-255). There is no
constructor for returning control to the caller: every path execs or dies. -/
inductive ChildOutcome
  | execed
  | panicked (msg : String)
  deriving DecidableEq

def childSeq : List ChildAction :=
  [.initgroups, .setgid, .setuid, .prctl, .execve]

/-- The forked child branch, worker.rs lines 230-258: the list of actions
attempted, in order, and the outcome. The `CString::new(command).unwrap()` at
line 251 panics on an interior NUL before execve is attempted. -/
def forkChild (sys : ChildSys) (command : String) : List ChildAction × ChildOutcome :=
  match sys.initgroups_res with
  | some _ => ([.initgroups], .panicked "unable to init groups")
  | none =>
  match sys.setgid_res with
  | some _ => ([.initgroups, .setgid], .panicked "unable to set GID")
  | none =>
  match sys.setuid_res with
  | some _ => ([.initgroups, .setgid, .setuid], .panicked "unable to set UID")
  | none =>
  match sys.prctl_res with
  | some _ => ([.initgroups, .setgid, .setuid, .prctl], .panicked "unable to set death signal")
  | none =>
  if hasNul command then
    ([.initgroups, .setgid, .setuid, .prctl], .panicked "nul byte found in provided data")
  else
  match sys.execve_res with
  | some _ => (childSeq, .panicked "unable to exec")
  | none => (childSeq, .execed)

/-! ## Protocol-state vocabulary for the sequencing claims -/

/-- The three states in which the worker blocks on a parent message. -/
inductive AwaitState
  | awaitInitiate
  | awaitArgs
  | awaitStart
  deriving DecidableEq

/-- Which messages each awaiting state accepts (worker.rs lines 85-96,
113-117, 122-126): the expected message for the state, or Cancel. -/
def acceptsAwait : AwaitState → ParentToSessionChild → Bool
  | .awaitInitiate, .InitiateLogin _ _ _ _ _ _ => true
  | _, .Cancel => true
  | .awaitArgs, .Args _ => true
  | .awaitStart, .Start => true
  | _, _ => false

def expectedTextOf : AwaitState → String
  | .awaitInitiate => "expected InitiateLogin or Cancel, got: "
  | .awaitArgs => "expected Args or Cancel, got: "
  | .awaitStart => "expected Start or Cancel, got: "

/-- The protocol-mismatch error each state produces for an unexpected
message. -/
def mismatchError (st : AwaitState) (m : ParentToSessionChild) : Error :=
  .text (expectedTextOf st ++ debugP2S m)

/-- Whether a message style is a prompt (expects a populated response entry)
rather than a notice (whose response entry stays null). -/
def PamMessageStyle.isPrompt : PamMessageStyle → Bool
  | .PROMPT_ECHO_ON => true
  | .PROMPT_ECHO_OFF => true
  | .ERROR_MSG => false
  | .TEXT_INFO => false

/-- The shell invocation described by the spec sentence taken literally:
guarded sourcing of the system profile, then the guarded user profile,
followed by the requested command; otherwise just the requested command
(with no mention of an exec prefix). Used to compare the spec wording with
the source. -/
def specShellInvocationLiteral (source_profile : Bool) (cmd : List String) : String :=
  if source_profile then
    "[ -f /etc/profile ] && . /etc/profile; [ -f $HOME/.profile ] && . $HOME/.profile; "
      ++ String.intercalate " " cmd
  else
    String.intercalate " " cmd

/-- The amended spec-side shell invocation, assembled from the spec's
pieces: guarded sourcing of the system-wide profile script, then the guarded
user profile script, then exec of the requested command; without
source-profile, exec of the requested command alone. -/
def specShellInvocation (source_profile : Bool) (cmd : List String) : String :=
  let sourceSystemProfile := "[ -f /etc/profile ] && . /etc/profile; "
  let sourceUserProfile := "[ -f $HOME/.profile ] && . $HOME/.profile; "
  let execRequested := "exec " ++ String.intercalate " " cmd
  if source_profile then
    sourceSystemProfile ++ (sourceUserProfile ++ execRequested)
  else
    execRequested

/-! ## Concrete run oracles used by witnesses and counterexamples -/

def aliceRecord : UserRecord :=
  { name := some "alice", home_dir := some "/home/alice", shell := some "/bin/sh",
    uid := 1000, primary_group_id := 1000 }

/-- A run in which every external call succeeds and the parent plays the
happy-path script. -/
def sysOk : Sys :=
  { inputs := [.InitiateLogin "greetd" "user" "alice" true .Stdin false,
               .Args ["/bin/true"], .Start],
    pam_start := none, pam_authenticate := none, pam_acct_mgmt := none,
    pam_setcred_establish := none, pam_get_user := .ok "alice",
    get_user_by_name := fun _ => some aliceRecord,
    setsid_res := none,
    pam_set_item := fun _ => none,
    pam_putenv := fun _ => none,
    term_open := fun _ => none,
    kd_setmode := none, term_clear := none, vt_get_current := .ok 1,
    vt_setactivate := none, term_connect_pipes := none, term_take_ctty := none,
    set_current_dir := fun s => s == "/home/alice" || s == "/",
    env_var := fun s =>
      if s == "GREETD_SOCK" then some "/run/greetd.sock"
      else if s == "TERM" then some "linux" else none,
    pam_open_session := none, pam_getenvlist := .ok [],
    fork_res := .ok 4242, sock_shutdown := none, prctl_res := none,
    pam_close_session := none, pam_setcred_delete := none, pam_end := none }

/-- Like sysOk, but the worker process was started without GREETD_SOCK in
its environment. -/
def sysD : Sys :=
  { sysOk with env_var := fun s => if s == "TERM" then some "linux" else none }

/-- The parent opens with Start instead of InitiateLogin. -/
def sysA : Sys := { sysOk with inputs := [.Start] }

/-- The parent sends Start while the worker awaits Args. -/
def sysB : Sys :=
  { sysOk with inputs := [.InitiateLogin "greetd" "user" "alice" true .Stdin false, .Start] }

/-- The parent sends a second Args while the worker awaits Start. -/
def sysC : Sys :=
  { sysOk with inputs := [.InitiateLogin "greetd" "user" "alice" true .Stdin false,
                          .Args ["/bin/true"], .Args ["/bin/true"]] }

/-- Like sysOk, but changing into the home directory fails and only the root
directory is reachable. -/
def sysHomeFail : Sys := { sysOk with set_current_dir := fun s => s == "/" }

/-- The parent hangs up before sending anything. -/
def sysEmpty : Sys := { sysOk with inputs := [] }

/-- Like sysOk, but the resolved user record has non-UTF-8 name, home and
shell, and only the root directory is reachable. -/
def sysNoUtf8 : Sys :=
  { sysOk with
    get_user_by_name := fun _ =>
      some { name := none, home_dir := none, shell := none,
             uid := 1000, primary_group_id := 1000 },
    set_current_dir := fun s => s == "/" }

/-- A handler whose responses are ordinary NUL-free strings. -/
def hOk : Converse :=
  { prompt_echo := fun _ => .ok "resp", prompt_blind := fun _ => .ok "secret",
    error := fun _ => .ok (), info := fun _ => .ok () }

/-- A string consisting of one NUL character. -/
def nulStr : String := String.mk [Char.ofNat 0]

/-- A handler whose responses contain an interior NUL byte. -/
def hNul : Converse :=
  { prompt_echo := fun _ => .ok nulStr, prompt_blind := fun _ => .ok nulStr,
    error := fun _ => .ok (), info := fun _ => .ok () }

def msgEcho : PamMessage := { msg_style := .PROMPT_ECHO_ON, msg := some "login:" }

def msgBlind : PamMessage := { msg_style := .PROMPT_ECHO_OFF, msg := some "password:" }

/-- A forked child run in which every privileged call succeeds. -/
def childOk : ChildSys :=
  { initgroups_res := none, setgid_res := none, setuid_res := none,
    prctl_res := none, execve_res := none }

/-- A forked child run in which setgid fails. -/
def childBadGid : ChildSys :=
  { initgroups_res := none, setgid_res := some "EPERM", setuid_res := none,
    prctl_res := none, execve_res := none }

/-- Conditions under which the worker run reaches the post-Start session
stage (worker.rs line 128) with the given parameters: the parent script
opens InitiateLogin, Args, Start; the authentication stage calls succeed;
the username resolves to the record `u`; setsid succeeds; and the
terminal-acquisition block completes. -/
def reachesSessionStage (sys : Sys) (service cls user : String) (auth : Bool)
    (tty : TerminalMode) (sp : Bool) (cmd : List String)
    (rest : List ParentToSessionChild) (uname : String) (u : UserRecord) : Prop :=
  sys.inputs = .InitiateLogin service cls user auth tty sp :: .Args cmd :: .Start :: rest ∧
  sys.pam_start = none ∧
  (auth = true → sys.pam_authenticate = none) ∧
  sys.pam_acct_mgmt = none ∧
  sys.pam_setcred_establish = none ∧
  sys.pam_get_user = .ok uname ∧
  sys.get_user_by_name uname = some u ∧
  sys.setsid_res = none ∧
  ttyStage sys tty = none

/-! ## Helper lemmas -/

theorem decodeStrList_map (l : List String) :
    decodeStrList (l.map Json.str) = some l := by
  induction l with
  | nil => rfl
  | cons x xs ih => simp [decodeStrList, ih]

theorem decodeTerminalMode_encode (t : TerminalMode) :
    decodeTerminalMode (encodeTerminalMode t) = some t := by
  cases t <;> rfl

theorem decodeAuthMessageType_encode (a : AuthMessageType) :
    decodeAuthMessageType (encodeAuthMessageType a) = some a := by
  cases a <;> rfl

theorem decodeError_encode (e : Error) :
    decodeError (encodeError e) = some e := by
  cases e <;> rfl

/-- C9: encoding then decoding any valid control message, in either
direction, yields the original value. The wire codec is the serde_json
externally-tagged representation modelled by encodeP2S/decodeP2S and
encodeS2P/decodeS2P; the Error payload is the spec-modelled structured
error. -/
theorem control_message_roundtrip :
    (∀ m : ParentToSessionChild, decodeP2S (encodeP2S m) = some m) ∧
    (∀ m : SessionChildToParent, decodeS2P (encodeS2P m) = some m) := by
  constructor
  · intro m
    cases m with
    | InitiateLogin service cls user auth tty sp =>
        simp [encodeP2S, decodeP2S, decodeTerminalMode_encode]
    | PamResponse r => cases r <;> rfl
    | Args cmd => simp [encodeP2S, decodeP2S, decodeStrList_map]
    | Start => rfl
    | Cancel => rfl
  · intro m
    cases m with
    | Success => rfl
    | Error e => cases e <;> rfl
    | PamMessage st msg => simp [encodeS2P, decodeS2P, decodeAuthMessageType_encode]
    | FinalChildPid pid => rfl

theorem converseStep_no_panic (h : Converse)
    (hE : ∀ s r, h.prompt_echo s = .ok r → hasNul r = false)
    (hB : ∀ s r, h.prompt_blind s = .ok r → hasNul r = false)
    (m : PamMessage) (t : String) :
    converseStep h m ≠ .panicked t := by
  rcases m with ⟨style, msg⟩
  rcases msg with _ | s
  · simp [converseStep]
  · cases style with
    | PROMPT_ECHO_ON =>
        cases he : h.prompt_echo s with
        | error e => simp [converseStep, he]
        | ok r => simp [converseStep, he, hE s r he]
    | PROMPT_ECHO_OFF =>
        cases he : h.prompt_blind s with
        | error e => simp [converseStep, he]
        | ok r => simp [converseStep, he, hB s r he]
    | ERROR_MSG =>
        cases he : h.error s <;> simp [converseStep, he]
    | TEXT_INFO =>
        cases he : h.info s <;> simp [converseStep, he]

theorem convLoop_no_panic (h : Converse)
    (hE : ∀ s r, h.prompt_echo s = .ok r → hasNul r = false)
    (hB : ∀ s r, h.prompt_blind s = .ok r → hasNul r = false) :
    ∀ (msgs : List PamMessage) (t : String) (rs : List (Option String)),
      convLoop h msgs ≠ .panicked t rs := by
  intro msgs
  induction msgs with
  | nil => intro t rs; simp [convLoop]
  | cons x xs ih =>
    intro t rs
    simp only [convLoop]
    cases hstep : converseStep h x with
    | panicked u => exact absurd hstep (converseStep_no_panic h hE hB x u)
    | fail => simp
    | ok r =>
      cases hrec : convLoop h xs with
      | success rs' => simp
      | failure rs' => simp
      | panicked u rs' => exact absurd hrec (ih u rs')

theorem converseStep_ok_isSome (h : Converse) (m : PamMessage) (r : Option String)
    (hstep : converseStep h m = .ok r) :
    Option.isSome r = PamMessageStyle.isPrompt m.msg_style := by
  rcases m with ⟨style, msg⟩
  rcases msg with _ | s
  · simp [converseStep] at hstep
  · cases style with
    | PROMPT_ECHO_ON =>
        cases he : h.prompt_echo s with
        | error e => rw [converseStep] at hstep; simp [he] at hstep
        | ok r' =>
            rw [converseStep] at hstep; simp only [he] at hstep
            by_cases hn : hasNul r' = true
            · simp [hn] at hstep
            · simp [hn] at hstep
              subst hstep; rfl
    | PROMPT_ECHO_OFF =>
        cases he : h.prompt_blind s with
        | error e => rw [converseStep] at hstep; simp [he] at hstep
        | ok r' =>
            rw [converseStep] at hstep; simp only [he] at hstep
            by_cases hn : hasNul r' = true
            · simp [hn] at hstep
            · simp [hn] at hstep
              subst hstep; rfl
    | ERROR_MSG =>
        cases he : h.error s with
        | error e => rw [converseStep] at hstep; simp [he] at hstep
        | ok u =>
            rw [converseStep] at hstep; simp [he] at hstep
            subst hstep; rfl
    | TEXT_INFO =>
        cases he : h.info s with
        | error e => rw [converseStep] at hstep; simp [he] at hstep
        | ok u =>
            rw [converseStep] at hstep; simp [he] at hstep
            subst hstep; rfl

theorem convLoop_success_forall (h : Converse) :
    ∀ (msgs : List PamMessage) (rs : List (Option String)),
      convLoop h msgs = .success rs →
      List.Forall₂ (fun m r => Option.isSome r = PamMessageStyle.isPrompt m.msg_style) msgs rs := by
  intro msgs
  induction msgs with
  | nil =>
    intro rs hrs
    simp [convLoop] at hrs
    subst hrs
    exact List.Forall₂.nil
  | cons x xs ih =>
    intro rs hrs
    simp only [convLoop] at hrs
    cases hstep : converseStep h x with
    | panicked t => rw [hstep] at hrs; simp at hrs
    | fail => rw [hstep] at hrs; simp at hrs
    | ok r =>
      rw [hstep] at hrs
      cases hrec : convLoop h xs with
      | success rs' =>
        rw [hrec] at hrs
        injection hrs with h'
        subst h'
        exact List.Forall₂.cons (converseStep_ok_isSome h x r hstep) (ih rs' hrec)
      | failure rs' => rw [hrec] at hrs; simp at hrs
      | panicked t rs' => rw [hrec] at hrs; simp at hrs

/-- C2 (amended): the conversation bridge never panics across the callback
boundary, and converts every fallible textual or native operation into a
native return code, provided every successful prompt-handler response is
free of interior NUL bytes. (Unamended, the claim is false: a handler
response containing an interior NUL makes the expect at ffi.rs lines 57/66
panic; see the counterexample.) -/
theorem converse_no_panic (callocOk : Bool) (h : Converse) (msgs : List PamMessage)
    (hE : ∀ s r, h.prompt_echo s = .ok r → hasNul r = false)
    (hB : ∀ s r, h.prompt_blind s = .ok r → hasNul r = false) :
    (converse callocOk h msgs).panicked = none ∧
    ((converse callocOk h msgs).code = .SUCCESS ∨
     (converse callocOk h msgs).code = .CONV_ERR ∨
     (converse callocOk h msgs).code = .BUF_ERR) := by
  unfold converse
  by_cases hc : callocOk = false
  · simp [hc]
  · simp only [hc, if_false]
    cases hl : convLoop h msgs with
    | panicked t rs => exact absurd hl (convLoop_no_panic h hE hB msgs t rs)
    | failure rs => simp
    | success rs => simp

/-- C2 counterexample: with a handler whose prompt response contains an
interior NUL byte, the conversation callback panics instead of returning an
error code, refuting the unamended claim. -/
theorem converse_no_panic_counterexample :
    (converse true hNul [msgEcho]).panicked = some "unable to allocate response string" := by
  decide

/-- Closed witness for the amended C2 theorem at a concrete run. -/
theorem converse_no_panic_witness :
    (converse true hOk [msgEcho]).panicked = none ∧
    ((converse true hOk [msgEcho]).code = .SUCCESS ∨
     (converse true hOk [msgEcho]).code = .CONV_ERR ∨
     (converse true hOk [msgEcho]).code = .BUF_ERR) :=
  converse_no_panic true hOk [msgEcho]
    (fun s r hr => by injection hr with h'; subst h'; decide)
    (fun s r hr => by injection hr with h'; subst h'; decide)

/-- C4 (amended): for every conversation batch on which the bridge does not
panic, either the call succeeds and hands back a response array with exactly
one entry per input message — prompt entries populated, notice entries null
— with nothing freed (ownership passes to the native layer), or it fails
with a non-success code, hands back no output array, and frees exactly the
response strings it had allocated plus the response array itself. (Unamended
the claim is false: a prompt-handler response with an interior NUL makes the
call panic instead of returning; see the counterexample.) -/
theorem converse_all_or_nothing (callocOk : Bool) (h : Converse) (msgs : List PamMessage)
    (hnp : (converse callocOk h msgs).panicked = none) :
    ((converse callocOk h msgs).code = .SUCCESS ∧
     (∃ rs, (converse callocOk h msgs).output = some rs ∧
        List.Forall₂ (fun m r => Option.isSome r = PamMessageStyle.isPrompt m.msg_style) msgs rs) ∧
     (converse callocOk h msgs).strings_freed = [] ∧
     (converse callocOk h msgs).array_freed = false)
    ∨ ((converse callocOk h msgs).code ≠ .SUCCESS ∧
       (converse callocOk h msgs).output = none ∧
       (converse callocOk h msgs).strings_freed = (converse callocOk h msgs).strings_allocated ∧
       ((converse callocOk h msgs).array_allocated = true →
          (converse callocOk h msgs).array_freed = true)) := by
  unfold converse at hnp ⊢
  by_cases hc : callocOk = false
  · simp [hc]
  · simp only [hc, if_false] at hnp ⊢
    cases hl : convLoop h msgs with
    | panicked t rs => rw [hl] at hnp; simp at hnp
    | failure rs => simp
    | success rs =>
      left
      refine ⟨by simp, ⟨rs, by simp, convLoop_success_forall h msgs rs hl⟩, by simp, by simp⟩

/-- C4 counterexample: with a blind-prompt handler response containing an
interior NUL byte, the callback neither succeeds nor returns an error code —
it panics — refuting the unamended dichotomy. -/
theorem converse_all_or_nothing_counterexample :
    (converse true hNul [msgBlind]).panicked = some "unable to allocate response string" ∧
    (converse true hNul [msgBlind]).output = none := by
  decide

/-- Closed witness for the amended C4 theorem at a concrete run. -/
theorem converse_all_or_nothing_witness :
    ((converse true hOk [msgBlind]).code = .SUCCESS ∧
     (∃ rs, (converse true hOk [msgBlind]).output = some rs ∧
        List.Forall₂ (fun m r => Option.isSome r = PamMessageStyle.isPrompt m.msg_style)
          [msgBlind] rs) ∧
     (converse true hOk [msgBlind]).strings_freed = [] ∧
     (converse true hOk [msgBlind]).array_freed = false)
    ∨ ((converse true hOk [msgBlind]).code ≠ .SUCCESS ∧
       (converse true hOk [msgBlind]).output = none ∧
       (converse true hOk [msgBlind]).strings_freed = (converse true hOk [msgBlind]).strings_allocated ∧
       ((converse true hOk [msgBlind]).array_allocated = true →
          (converse true hOk [msgBlind]).array_freed = true)) :=
  converse_all_or_nothing true hOk [msgBlind] (by decide)

/-- C3: for every failure returned by the worker state machine, the entry
point appends the structured Error message to the socket traffic before
propagating the same failure to its own exit path, so the parent observes
the Error rather than silence. -/
theorem entry_point_reports_error (sys : Sys) (e : Error)
    (hw : (worker sys).result = .err e) :
    (workerMain sys).1 = (worker sys).sent ++ [.Error e] ∧
    (workerMain sys).2 = .err e ∧
    SessionChildToParent.Error e ∈ (workerMain sys).1 := by
  unfold workerMain
  simp [hw]

/-- Closed witness for C3: a parent that hangs up immediately produces a
receive failure, which the entry point reports as an Error message. -/
theorem entry_point_reports_error_witness :
    (workerMain sysEmpty).1 = (worker sysEmpty).sent ++ [.Error (.text "recv failed")] ∧
    (workerMain sysEmpty).2 = .err (.text "recv failed") ∧
    SessionChildToParent.Error (.text "recv failed") ∈ (workerMain sysEmpty).1 :=
  entry_point_reports_error sysEmpty (.text "recv failed") (by decide)

/-- C5: in the forked child, the privileged actions are attempted in the
invariant order initgroups, setgid, setuid, parent-death-signal, exec — each
attempted only after every earlier step succeeded — and the child is
replaced by the exec image exactly when every step succeeds; otherwise it
dies by panic without returning control to shared code (the outcome type has
no normal-return alternative, mirroring the source's expect/unreachable
structure). -/
theorem privilege_drop_ordering (sys : ChildSys) (command : String) :
    (forkChild sys command).1 =
      childSeq.take (forkChild sys command).1.length ∧
    (ChildAction.setgid ∈ (forkChild sys command).1 → sys.initgroups_res = none) ∧
    (ChildAction.setuid ∈ (forkChild sys command).1 →
       sys.initgroups_res = none ∧ sys.setgid_res = none) ∧
    (ChildAction.prctl ∈ (forkChild sys command).1 →
       sys.initgroups_res = none ∧ sys.setgid_res = none ∧ sys.setuid_res = none) ∧
    (ChildAction.execve ∈ (forkChild sys command).1 →
       sys.initgroups_res = none ∧ sys.setgid_res = none ∧ sys.setuid_res = none ∧
       sys.prctl_res = none) ∧
    ((forkChild sys command).2 = .execed ↔
       (sys.initgroups_res = none ∧ sys.setgid_res = none ∧ sys.setuid_res = none ∧
        sys.prctl_res = none ∧ hasNul command = false ∧ sys.execve_res = none)) := by
  rcases sys with ⟨ig, sg, su, pr, ex⟩
  rcases ig with _ | a <;> rcases sg with _ | b <;> rcases su with _ | c <;>
    rcases pr with _ | d <;> rcases ex with _ | f <;> cases hc : hasNul command <;>
    simp_all [forkChild, childSeq]

/-- Closed witness for C5: in an all-success run exec is reached with every
earlier privileged step recorded successful, and the iff direction yields
the exec outcome. -/
theorem privilege_drop_ordering_witness :
    (childOk.initgroups_res = none ∧ childOk.setgid_res = none ∧
     childOk.setuid_res = none ∧ childOk.prctl_res = none) ∧
    (forkChild childOk "/bin/true").2 = .execed :=
  ⟨(privilege_drop_ordering childOk "/bin/true").2.2.2.2.1 (by decide),
   (privilege_drop_ordering childOk "/bin/true").2.2.2.2.2.mpr (by decide)⟩

/-- C6: in each awaiting state — AwaitInitiate, AwaitArgs, AwaitStart — a
message that is neither the expected one nor Cancel terminates the worker
with the protocol-mismatch error for that state, and the worker sends no
further state-advancing message: the socket traffic stops at exactly the
Successes already sent ([], [Success], [Success, Success] respectively),
with no further Success and never a FinalChildPid. -/
theorem out_of_sequence_protocol_error :
    (∀ (sys : Sys) (m : ParentToSessionChild) (rest : List ParentToSessionChild),
       sys.inputs = m :: rest →
       acceptsAwait .awaitInitiate m = false →
       (worker sys).result = .err (mismatchError .awaitInitiate m) ∧
       (worker sys).sent = []) ∧
    (∀ (sys : Sys) (service cls user : String) (auth : Bool) (tty : TerminalMode)
       (sp : Bool) (m : ParentToSessionChild) (rest : List ParentToSessionChild),
       sys.inputs = .InitiateLogin service cls user auth tty sp :: m :: rest →
       sys.pam_start = none → (auth = true → sys.pam_authenticate = none) →
       sys.pam_acct_mgmt = none → sys.pam_setcred_establish = none →
       acceptsAwait .awaitArgs m = false →
       (worker sys).result = .err (mismatchError .awaitArgs m) ∧
       (worker sys).sent = [.Success]) ∧
    (∀ (sys : Sys) (service cls user : String) (auth : Bool) (tty : TerminalMode)
       (sp : Bool) (cmd : List String) (m : ParentToSessionChild)
       (rest : List ParentToSessionChild),
       sys.inputs = .InitiateLogin service cls user auth tty sp :: .Args cmd :: m :: rest →
       sys.pam_start = none → (auth = true → sys.pam_authenticate = none) →
       sys.pam_acct_mgmt = none → sys.pam_setcred_establish = none →
       acceptsAwait .awaitStart m = false →
       (worker sys).result = .err (mismatchError .awaitStart m) ∧
       (worker sys).sent = [.Success, .Success]) := by
  refine ⟨?_, ?_, ?_⟩
  · intro sys m rest hin hacc
    cases m <;> simp [acceptsAwait] at hacc <;>
      simp [worker, hin, mismatchError, expectedTextOf, debugP2S, failOut]
  · intro sys service cls user auth tty sp m rest hin h1 h2 h3 h4 hacc
    have h2' : (if auth then sys.pam_authenticate else none) = none := by
      cases auth
      · rfl
      · exact h2 rfl
    cases m <;> simp [acceptsAwait] at hacc <;>
      simp [worker, hin, authStage, argsStage, h1, h2', h3, h4,
            mismatchError, expectedTextOf, debugP2S, failOut]
  · intro sys service cls user auth tty sp cmd m rest hin h1 h2 h3 h4 hacc
    have h2' : (if auth then sys.pam_authenticate else none) = none := by
      cases auth
      · rfl
      · exact h2 rfl
    cases m <;> simp [acceptsAwait] at hacc <;>
      simp [worker, hin, authStage, argsStage, startStage, h1, h2', h3, h4,
            mismatchError, expectedTextOf, debugP2S, failOut]

/-- Closed witness for C6, exercising each awaiting state with a concrete
out-of-sequence message. -/
theorem out_of_sequence_protocol_error_witness :
    ((worker sysA).result = .err (mismatchError .awaitInitiate .Start) ∧
     (worker sysA).sent = []) ∧
    ((worker sysB).result = .err (mismatchError .awaitArgs .Start) ∧
     (worker sysB).sent = [.Success]) ∧
    ((worker sysC).result = .err (mismatchError .awaitStart (.Args ["/bin/true"])) ∧
     (worker sysC).sent = [.Success, .Success]) :=
  ⟨out_of_sequence_protocol_error.1 sysA .Start [] rfl (by decide),
   out_of_sequence_protocol_error.2.1 sysB "greetd" "user" "alice" true .Stdin false
     .Start [] rfl rfl (fun _ => rfl) rfl rfl (by decide),
   out_of_sequence_protocol_error.2.2 sysC "greetd" "user" "alice" true .Stdin false
     ["/bin/true"] (.Args ["/bin/true"]) [] rfl rfl (fun _ => rfl) rfl rfl (by decide)⟩

theorem worker_eq_sessionStage (sys : Sys) (service cls user : String) (auth : Bool)
    (tty : TerminalMode) (sp : Bool) (cmd : List String)
    (rest : List ParentToSessionChild) (uname : String) (u : UserRecord)
    (hreach : reachesSessionStage sys service cls user auth tty sp cmd rest uname u) :
    worker sys = sessionStage sys cls tty sp cmd := by
  obtain ⟨hin, h1, h2, h3, h4, _, _, _, _⟩ := hreach
  have h2' : (if auth then sys.pam_authenticate else none) = none := by
    cases auth
    · rfl
    · exact h2 rfl
  simp [worker, hin, authStage, argsStage, startStage, h1, h2', h3, h4]

theorem sessionStage_reduce (sys : Sys) (cls : String) (tty : TerminalMode)
    (sp : Bool) (cmd : List String) (uname : String) (u : UserRecord)
    (hg : sys.pam_get_user = .ok uname) (hu : sys.get_user_by_name uname = some u)
    (hs : sys.setsid_res = none) (ht : ttyStage sys tty = none) :
    sessionStage sys cls tty sp cmd =
      (if sys.set_current_dir ((u.home_dir).getD "") then
         sessionEnvStage sys cls sp cmd ((u.name).getD "") ((u.home_dir).getD "")
           ((u.shell).getD "") ((u.home_dir).getD "")
       else if sys.set_current_dir "/" then
         sessionEnvStage sys cls sp cmd ((u.name).getD "") ((u.home_dir).getD "")
           ((u.shell).getD "") "/"
       else
         midOut [.Success, .Success] (some ((u.home_dir).getD "")) none none none false
           (.err (.text "unable to set working directory"))) := by
  simp [sessionStage, hg, hu, hs, ht]

theorem sessionEnvStage_fields (sys : Sys) (cls : String) (sp : Bool)
    (cmd : List String) (username home shell pwd : String) :
    (sessionEnvStage sys cls sp cmd username home shell pwd).pwd = some pwd ∧
    (sessionEnvStage sys cls sp cmd username home shell pwd).attemptedWorkdir = some home := by
  cases h : sys.env_var "GREETD_SOCK" <;> simp [sessionEnvStage, h, midOut]

theorem sessionEnvStage_prepared (sys : Sys) (cls : String) (sp : Bool)
    (cmd : List String) (username home shell pwd sock : String)
    (hsock : sys.env_var "GREETD_SOCK" = some sock) :
    (sessionEnvStage sys cls sp cmd username home shell pwd).preparedEnv =
      some ["XDG_SEAT=seat0", "XDG_SESSION_CLASS=" ++ cls, "USER=" ++ username,
            "LOGNAME=" ++ username, "HOME=" ++ home, "SHELL=" ++ shell,
            "PWD=" ++ pwd, "GREETD_SOCK=" ++ sock,
            "TERM=" ++ ((sys.env_var "TERM").getD "linux")] := by
  unfold sessionEnvStage
  rw [hsock]
  simp [midOut]

theorem sessionEnvStage_no_sock (sys : Sys) (cls : String) (sp : Bool)
    (cmd : List String) (username home shell pwd : String)
    (hsock : sys.env_var "GREETD_SOCK" = none) :
    (sessionEnvStage sys cls sp cmd username home shell pwd).result =
      .panicked "called Result unwrap on an Err value: NotPresent" ∧
    (sessionEnvStage sys cls sp cmd username home shell pwd).openSessionAttempted = false ∧
    (sessionEnvStage sys cls sp cmd username home shell pwd).sent = [.Success, .Success] := by
  unfold sessionEnvStage
  rw [hsock]
  simp [midOut]

/-- C7: in the environment-construction stage, the working directory becomes
the resolved home directory when changing into it succeeds, and otherwise
falls back to "/" without raising a failure (the stage completes, recording
the chosen directory); only a failure of the "/" fallback itself — outside
"home-directory inaccessibility alone" — aborts. -/
theorem working_directory_fallback (sys : Sys) (service cls user : String)
    (auth : Bool) (tty : TerminalMode) (sp : Bool) (cmd : List String)
    (rest : List ParentToSessionChild) (uname : String) (u : UserRecord)
    (hreach : reachesSessionStage sys service cls user auth tty sp cmd rest uname u) :
    (sys.set_current_dir ((u.home_dir).getD "") = true →
       (worker sys).pwd = some ((u.home_dir).getD "") ∧
       (worker sys).attemptedWorkdir = some ((u.home_dir).getD "")) ∧
    (sys.set_current_dir ((u.home_dir).getD "") = false →
       sys.set_current_dir "/" = true →
       (worker sys).pwd = some "/" ∧
       (worker sys).attemptedWorkdir = some ((u.home_dir).getD "")) := by
  obtain ⟨hin, h1, h2, h3, h4, hg, hu, hs, ht⟩ := hreach
  rw [worker_eq_sessionStage sys service cls user auth tty sp cmd rest uname u
        ⟨hin, h1, h2, h3, h4, hg, hu, hs, ht⟩,
      sessionStage_reduce sys cls tty sp cmd uname u hg hu hs ht]
  constructor
  · intro hc
    rw [if_pos hc]
    exact sessionEnvStage_fields sys cls sp cmd ((u.name).getD "") ((u.home_dir).getD "")
      ((u.shell).getD "") ((u.home_dir).getD "")
  · intro hc hr
    rw [if_neg (by simp [hc]), if_pos hr]
    exact sessionEnvStage_fields sys cls sp cmd ((u.name).getD "") ((u.home_dir).getD "")
      ((u.shell).getD "") "/"

/-- Closed witness for C7: with the home directory reachable the working
directory is the home directory; with it unreachable but "/" reachable the
run still proceeds with "/". -/
theorem working_directory_fallback_witness :
    ((worker sysOk).pwd = some "/home/alice" ∧
     (worker sysOk).attemptedWorkdir = some "/home/alice") ∧
    ((worker sysHomeFail).pwd = some "/" ∧
     (worker sysHomeFail).attemptedWorkdir = some "/home/alice") :=
  ⟨(working_directory_fallback sysOk "greetd" "user" "alice" true .Stdin false
      ["/bin/true"] [] "alice" aliceRecord
      ⟨rfl, rfl, fun _ => rfl, rfl, rfl, rfl, rfl, rfl, rfl⟩).1 (by decide),
   (working_directory_fallback sysHomeFail "greetd" "user" "alice" true .Stdin false
      ["/bin/true"] [] "alice" aliceRecord
      ⟨rfl, rfl, fun _ => rfl, rfl, rfl, rfl, rfl, rfl, rfl⟩).2 (by decide) (by decide)⟩

/-- C10: when the resolved user record's name, home directory and shell are
not valid UTF-8, the worker substitutes the empty string for each: the empty
string is the attempted working directory (falling back to "/"), and the
USER, LOGNAME, HOME and SHELL entries fed to the native transaction carry
empty values — the run does not fail over the substitution (the environment
list is fully constructed). -/
theorem invalid_utf8_empty_substitution (sys : Sys) (service cls user : String)
    (auth : Bool) (tty : TerminalMode) (sp : Bool) (cmd : List String)
    (rest : List ParentToSessionChild) (uname : String) (u : UserRecord)
    (hreach : reachesSessionStage sys service cls user auth tty sp cmd rest uname u)
    (hname : u.name = none) (hhome : u.home_dir = none) (hshell : u.shell = none)
    (hc1 : sys.set_current_dir "" = false) (hc2 : sys.set_current_dir "/" = true)
    (sock : String) (hsock : sys.env_var "GREETD_SOCK" = some sock) :
    (worker sys).attemptedWorkdir = some "" ∧
    (worker sys).preparedEnv =
      some ["XDG_SEAT=seat0", "XDG_SESSION_CLASS=" ++ cls, "USER=", "LOGNAME=",
            "HOME=", "SHELL=", "PWD=/", "GREETD_SOCK=" ++ sock,
            "TERM=" ++ ((sys.env_var "TERM").getD "linux")] := by
  obtain ⟨hin, h1, h2, h3, h4, hg, hu, hs, ht⟩ := hreach
  rw [worker_eq_sessionStage sys service cls user auth tty sp cmd rest uname u
        ⟨hin, h1, h2, h3, h4, hg, hu, hs, ht⟩,
      sessionStage_reduce sys cls tty sp cmd uname u hg hu hs ht]
  simp only [hname, hhome, hshell, Option.getD_none]
  rw [if_neg (by simp [hc1]), if_pos hc2]
  constructor
  · exact (sessionEnvStage_fields sys cls sp cmd "" "" "" "/").2
  · rw [sessionEnvStage_prepared sys cls sp cmd "" "" "" "/" sock hsock]
    rfl

/-- Closed witness for C10 at a concrete run with a non-UTF-8 user record. -/
theorem invalid_utf8_empty_substitution_witness :
    (worker sysNoUtf8).attemptedWorkdir = some "" ∧
    (worker sysNoUtf8).preparedEnv =
      some ["XDG_SEAT=seat0", "XDG_SESSION_CLASS=" ++ "user", "USER=", "LOGNAME=",
            "HOME=", "SHELL=", "PWD=/", "GREETD_SOCK=" ++ "/run/greetd.sock",
            "TERM=" ++ ((sysNoUtf8.env_var "TERM").getD "linux")] :=
  invalid_utf8_empty_substitution sysNoUtf8 "greetd" "user" "alice" true .Stdin false
    ["/bin/true"] [] "alice" ⟨none, none, none, 1000, 1000⟩
    ⟨rfl, rfl, fun _ => rfl, rfl, rfl, rfl, rfl, rfl, rfl⟩ rfl rfl rfl
    (by decide) (by decide) "/run/greetd.sock" (by decide)

/-- C1 (amended): when the inherited environment lacks GREETD_SOCK, the
worker run that has reached environment construction terminates by a panic
(the unwrap at worker.rs line 196) before the native session-open call is
attempted — but, contrary to the unamended claim, the failure is a panic,
not a structured Error message: the entry point never sends an Error to the
parent, whose last observation is the two Successes. -/
theorem greetd_sock_missing_panics (sys : Sys) (service cls user : String)
    (auth : Bool) (tty : TerminalMode) (sp : Bool) (cmd : List String)
    (rest : List ParentToSessionChild) (uname : String) (u : UserRecord)
    (hreach : reachesSessionStage sys service cls user auth tty sp cmd rest uname u)
    (hchdir : sys.set_current_dir ((u.home_dir).getD "") = true ∨
              sys.set_current_dir "/" = true)
    (hsock : sys.env_var "GREETD_SOCK" = none) :
    (worker sys).result = .panicked "called Result unwrap on an Err value: NotPresent" ∧
    (worker sys).openSessionAttempted = false ∧
    (worker sys).sent = [.Success, .Success] ∧
    (workerMain sys).1 = [.Success, .Success] ∧
    (∀ e, SessionChildToParent.Error e ∉ (workerMain sys).1) := by
  obtain ⟨hin, h1, h2, h3, h4, hg, hu, hs, ht⟩ := hreach
  have hw : worker sys = sessionStage sys cls tty sp cmd :=
    worker_eq_sessionStage sys service cls user auth tty sp cmd rest uname u
      ⟨hin, h1, h2, h3, h4, hg, hu, hs, ht⟩
  have hred := sessionStage_reduce sys cls tty sp cmd uname u hg hu hs ht
  have hws : ∃ pwd, worker sys = sessionEnvStage sys cls sp cmd ((u.name).getD "")
      ((u.home_dir).getD "") ((u.shell).getD "") pwd := by
    by_cases hc : sys.set_current_dir ((u.home_dir).getD "") = true
    · exact ⟨_, by rw [hw, hred, if_pos hc]⟩
    · have hr : sys.set_current_dir "/" = true := by
        rcases hchdir with h | h
        · exact absurd h hc
        · exact h
      exact ⟨"/", by rw [hw, hred, if_neg hc, if_pos hr]⟩
  obtain ⟨pwd, hws⟩ := hws
  have hns := sessionEnvStage_no_sock sys cls sp cmd ((u.name).getD "")
    ((u.home_dir).getD "") ((u.shell).getD "") pwd hsock
  have hres : (worker sys).result =
      .panicked "called Result unwrap on an Err value: NotPresent" := by
    rw [hws]; exact hns.1
  have hosa : (worker sys).openSessionAttempted = false := by
    rw [hws]; exact hns.2.1
  have hsent : (worker sys).sent = [.Success, .Success] := by
    rw [hws]; exact hns.2.2
  have hmain : (workerMain sys).1 = [.Success, .Success] := by
    unfold workerMain
    simp only [hres, hsent]
  refine ⟨hres, hosa, hsent, hmain, ?_⟩
  intro e
  rw [hmain]
  simp

/-- C1 counterexample: at a concrete run lacking GREETD_SOCK the worker
panics and no Error message is ever sent to the parent, refuting the
unamended claim that the failure is reported as a structured Error. -/
theorem greetd_sock_missing_counterexample :
    (worker sysD).result = .panicked "called Result unwrap on an Err value: NotPresent" ∧
    (workerMain sysD).1 = [.Success, .Success] := by
  decide

/-- Closed witness for the amended C1 theorem at the same concrete run. -/
theorem greetd_sock_missing_panics_witness :
    (worker sysD).openSessionAttempted = false ∧
    (worker sysD).sent = [.Success, .Success] ∧
    (∀ e, SessionChildToParent.Error e ∉ (workerMain sysD).1) :=
  have h := greetd_sock_missing_panics sysD "greetd" "user" "alice" true .Stdin false
    ["/bin/true"] [] "alice" aliceRecord
    ⟨rfl, rfl, fun _ => rfl, rfl, rfl, rfl, rfl, rfl, rfl⟩ (Or.inl (by decide)) (by decide)
  ⟨h.2.1, h.2.2.1, h.2.2.2.2⟩

/-- C8 counterexample: without source-profile the string passed to `sh -c`
is not "just the requested command" — the source prefixes `exec ` in both
branches (worker.rs lines 212-219). -/
theorem build_command_counterexample :
    buildCommand false ["/bin/true"] = "exec /bin/true" ∧
    specShellInvocationLiteral false ["/bin/true"] = "/bin/true" ∧
    buildCommand false ["/bin/true"] ≠ specShellInvocationLiteral false ["/bin/true"] := by
  decide

/-- C8 (amended): for every stored Args command and source-profile flag, the
shell-invocation string is the guarded sourcing of the system-wide profile
script, then the guarded user profile script, followed by `exec` of the
requested command — and otherwise `exec` of the requested command alone. -/
theorem build_command_exec_spec :
    ∀ (sp : Bool) (cmd : List String),
      buildCommand sp cmd = specShellInvocation sp cmd := by
  intro sp cmd
  cases sp <;> rfl

/-- Sanity anchor: on the happy-path run the worker sends exactly
Success, Success, FinalChildPid and returns normally, matching the spec's
Scenario B. -/
theorem worker_happy_path_check :
    (worker sysOk).sent = [.Success, .Success, .FinalChildPid 4242] ∧
    (worker sysOk).result = .ok ∧
    (worker sysOk).command = some "exec /bin/true" := by
  decide
